import Mathlib

/-!
Verification development for the side-effect marker extraction engine of the
`deal` linter.  The definitions below are a shallow embedding of
`deal/linter/_stub.py` and `deal/linter/_extractors/markers.py`.  External
collaborators (the astroid inference oracle, the contract parser, the
`Extractor` dispatch table from `common.py`, and the Python standard library
pieces used by the code) are modelled at their interface boundary; every such
definition carries a doc comment saying what it models.
-/

set_option autoImplicit false

namespace DealLinter

/-- Python literal values as they occur in AST constant nodes
(`astroid.Const.value`, `ast.Str.s`).  Only the shapes the analysed code
inspects are represented: strings, integers and `None`. -/
inductive PyVal where
  | str (s : String)
  | int (n : Int)
  | none_
  deriving DecidableEq, Repr

/-- Python exceptions raised by the embedded code. -/
inductive PyErr where
  | valueError (msg : String)
  | typeError (msg : String)
  | fileNotFoundError
  | jsonDecodeError
  deriving DecidableEq, Repr

/-- Membership test `ch in s` of Python for a single-character needle:
true when the character occurs in the string. -/
def charIn (ch : Char) (s : String) : Bool :=
  s.toList.contains ch

/-- Python `s.startswith(pre)`, modelled over the character lists. -/
def strStartsWith (s pre : String) : Bool :=
  pre.toList.isPrefixOf s.toList

/-- Python evaluation of `ch in v` for a constant `v`: a substring test for
strings, and a `TypeError` for non-iterable values such as integers — this is
exactly what CPython does for `'w' in 5`. -/
def pyCharIn (ch : Char) (v : PyVal) : Except PyErr Bool :=
  match v with
  | .str s => .ok (charIn ch s)
  | _ => .error (.typeError "argument of type is not iterable")

/-- Association-list lookup with decidable key equality, modelling Python
dict lookup (first binding of the key wins; the embedding keeps one binding
per key). -/
def alookup {κ α : Type} [DecidableEq κ] : List (κ × α) → κ → Option α
  | [], _ => none
  | (k, v) :: rest, k2 => if k = k2 then some v else alookup rest k2

/-- Association-list update modelling Python dict item assignment: replace
the binding in place when the key exists, append it otherwise (insertion
order is preserved, as for Python dicts). -/
def alistSet {κ α : Type} [DecidableEq κ] : List (κ × α) → κ → α → List (κ × α)
  | [], k, v => [(k, v)]
  | (k2, v2) :: rest, k, v =>
    if k2 = k then (k, v) :: rest else (k2, v2) :: alistSet rest k v

/-! ### Filesystem and path model

The code manipulates `pathlib.Path` values and a real filesystem.  A path is
modelled as its list of components (the last component being the file name)
and the filesystem as a finite map from paths to file data. -/

/-- Data stored at a path: a parsed JSON stub, a non-JSON file (package
markers and Python sources), or a file that was truncated by opening it for
writing without completing a dump. -/
inductive FileData where
  | jsonData (c : List (String × List (String × List String)))
  | pyMarker
  | truncated
  deriving DecidableEq, Repr

/-- A filesystem: existing paths with their data. -/
abbrev FS := List (List String × FileData)

/-- Path existence check, modelling `Path.exists`. -/
def fsHas (fs : FS) (p : List String) : Bool :=
  (alookup fs p).isSome

/-- Last path component (the file name).  Modelled from `pathlib`:
`Path.name`. -/
def lastComponent (p : List String) : String :=
  p.getLastD ""

/-- Parent path, modelled from `pathlib`: `Path.parent` drops the last
component (the parent of a single-component relative path is `.`, the empty
component list). -/
def pathParent (p : List String) : List String :=
  p.dropLast

/-- All ancestors of a path, modelled from `pathlib`: `Path.parents` for
`pkg/sub/mod.py` is `[pkg/sub, pkg, .]`, i.e. every proper prefix, longest
first, ending with the empty (current-directory) path. -/
def pathParents (p : List String) : List (List String) :=
  (List.range p.length).reverse.map fun k => p.take k

/-- File-name suffix, modelled from `pathlib`: `Path.suffix` is the part of
the name from its last dot onward, and is empty when the last dot is the
first or the last character — `Path(".json").suffix` and `Path("mod.").suffix`
are both empty. -/
def fileSuffix (name : String) : String :=
  let cs := name.toList
  match ((List.range cs.length).filter fun i => cs.getD i ' ' == '.').getLast? with
  | none => ""
  | some i => if 0 < i ∧ i + 1 < cs.length then String.mk (cs.drop i) else ""

/-- File-name stem, modelled from `pathlib`: the name with its suffix
removed. -/
def fileStem (name : String) : String :=
  String.mk (name.toList.take (name.toList.length - (fileSuffix name).toList.length))

/-- Suffix replacement, modelled from `pathlib`: `Path.with_suffix` replaces
the suffix of the last component. -/
def withSuffix (p : List String) (suf : String) : List String :=
  p.dropLast ++ [fileStem (lastComponent p) ++ suf]

/-! ### Stub files (`deal/linter/_stub.py`) -/

/-- Content of a stub file: function name to contract category to list of
values, as decoded from the JSON object. -/
abbrev StubContent := List (String × List (String × List String))

/-- `StubFile` from `_stub.py`: the backing path and the `_content`
mapping. -/
structure StubFile where
  path : List String
  content : StubContent
  deriving DecidableEq, Repr

/-- `StubFile.get`: read `self._content.get(func, {}).get(contract, [])` and
build a frozenset from it.  The frozenset is modelled as the duplicate-free
list of values in first-occurrence order. -/
def StubFile.get (sf : StubFile) (func contract : String) : List String :=
  (((alookup sf.content func).getD []) |> fun m => (alookup m contract).getD []).dedup

/-- `StubFile.add`: reject any contract other than `raises`, then
`setdefault` the nested containers and append the value when it is not
already present. -/
def StubFile.add (sf : StubFile) (func contract value : String) :
    Except PyErr StubFile :=
  if contract ≠ "raises" then
    .error (.valueError "only raises contract is supported yet")
  else
    let contracts := (alookup sf.content func).getD []
    let values := (alookup contracts contract).getD []
    let values2 := if values.contains value then values else values ++ [value]
    .ok { sf with content := alistSet sf.content func (alistSet contracts contract values2) }

/-- `StubFile.load`: open the backing path and `json.load` it.  A missing
file raises `FileNotFoundError`; a file that does not hold JSON raises a
decode error. -/
def StubFile.load (sf : StubFile) (fs : FS) : Except PyErr StubFile :=
  match alookup fs sf.path with
  | none => .error .fileNotFoundError
  | some (.jsonData c) => .ok { sf with content := c }
  | some _ => .error .jsonDecodeError

/-- `StubFile.dump`: the source executes
`self._content = json.dump(stream)` inside `with self.path.open(mode='w')`.
Opening the file for writing truncates it, and `json.dump` is called with the
stream as its only positional argument, so it raises `TypeError` (its `fp`
parameter is missing) before anything is serialised.  The result is the
propagated error together with the truncated backing file. -/
def StubFile.dump (sf : StubFile) (fs : FS) : Except PyErr Unit × FS :=
  (.error (.typeError "dump missing 1 required positional argument: fp"),
   alistSet fs sf.path FileData.truncated)

/-! ### Stubs manager (`deal/linter/_stub.py`) -/

/-- Location of the built-in, shipped stub files: models the class attribute
`root = Path(__file__).parent / 'stubs'`. -/
def stubsRoot : List String := ["deal", "linter", "stubs"]

/-- `StubsManager`: the built-in stub root and the `_modules` cache. -/
structure StubsManager where
  root : List String
  modules : List (String × StubFile)
  deriving DecidableEq, Repr

/-- `StubsManager._get_module_name`: built-in stubs resolve by stem; a stem
already containing a dot is treated as qualified; otherwise walk up the tree
as pytest does, to the first ancestor directory without an `__init__.py`
package marker, and join the remaining components with dots. -/
def _get_module_name (fs : FS) (root : List String) (path : List String) : String :=
  let stem := fileStem (lastComponent path)
  if pathParent path = root then stem
  else if charIn '.' stem then stem
  else if fsHas fs (pathParent path ++ ["__init__.py"]) = false then stem
  else
    match (pathParents path).find? fun par => !fsHas fs (par ++ ["__init__.py"]) with
    | some par =>
      let rel := path.drop par.length
      String.intercalate "." (rel.dropLast ++ [fileStem (lastComponent rel)])
    | none => stem

/-- `StubsManager.read`: reject non-`.json` extensions with `ValueError`
before touching the cache, then load and cache the stub at most once per
resolved module name.  The returned manager carries the (possibly updated)
cache; when an error is raised nothing has been mutated. -/
def StubsManager.read (m : StubsManager) (fs : FS) (path : List String) :
    Except PyErr StubFile × StubsManager :=
  if fileSuffix (lastComponent path) ≠ ".json" then
    (.error (.valueError ("invalid stub file extension: *" ++ fileSuffix (lastComponent path))), m)
  else
    let moduleName := _get_module_name fs m.root path
    match alookup m.modules moduleName with
    | some sf => (.ok sf, m)
    | none =>
      match StubFile.load ⟨path, []⟩ fs with
      | .error er => (.error er, m)
      | .ok sf => (.ok sf, { m with modules := alistSet m.modules moduleName sf })

/-- `StubsManager.get`: return the cached stub when present; otherwise, when
a built-in stub file `root / (module_name + ".json")` exists, `read` it (which
populates the cache) but still return `None`.  Errors raised by `read`
propagate. -/
def StubsManager.get (m : StubsManager) (fs : FS) (moduleName : String) :
    Except PyErr (Option StubFile) × StubsManager :=
  match alookup m.modules moduleName with
  | some sf => (.ok (some sf), m)
  | none =>
    let path := m.root ++ [moduleName ++ ".json"]
    if fsHas fs path then
      match m.read fs path with
      | (.ok _, m2) => (.ok none, m2)
      | (.error er, m2) => (.error er, m2)
    else (.ok none, m)

/-- `StubsManager.create`: switch a `.py` path to its `.json` sibling, then
create and cache an empty stub file at most once per module name. -/
def StubsManager.create (m : StubsManager) (fs : FS) (path : List String) :
    StubFile × StubsManager :=
  let path2 := if fileSuffix (lastComponent path) = ".py" then withSuffix path ".json" else path
  let moduleName := _get_module_name fs m.root path2
  match alookup m.modules moduleName with
  | some sf => (sf, m)
  | none =>
    let sf : StubFile := ⟨path2, []⟩
    (sf, { m with modules := alistSet m.modules moduleName sf })

/-- Add one extracted raised-exception value to the stub under the `raises`
contract, as done in the loop body of `generate_stub`. -/
def addValues (sf : StubFile) (fname : String) : List String → Except PyErr StubFile
  | [] => .ok sf
  | v :: vs =>
    match sf.add fname "raises" v with
    | .error er => .error er
    | .ok sf2 => addValues sf2 fname vs

/-- Fold the per-function extraction results into the stub, skipping unnamed
functions, as the `for func in funcs` loop of `generate_stub` does. -/
def addAll (sf : StubFile) : List (Option String × List String) → Except PyErr StubFile
  | [] => .ok sf
  | (none, _) :: rest => addAll sf rest
  | (some fname, vals) :: rest =>
    match addValues sf fname vals with
    | .error er => .error er
    | .ok sf2 => addAll sf2 rest

/-- `generate_stub` from `_stub.py`.  The `funcs` argument is modelled from
the spec: `Func.from_path` and `get_exceptions` (files `deal/linter/_func.py`
and `deal/linter/_extractors/__init__.py`, absent from the sources) enumerate
the top-level functions of the file and, per function, its optional name and
the string forms of every raised-value token.  The function itself follows the
source: reject non-`.py` paths, create the stub through a fresh manager, add
every extracted `raises` value, then `dump`. -/
def generate_stub (fs : FS) (path : List String)
    (funcs : List (Option String × List String)) :
    Except PyErr (List String) × FS :=
  if fileSuffix (lastComponent path) ≠ ".py" then
    (.error (.valueError ("invalid Python file extension: *" ++ fileSuffix (lastComponent path))), fs)
  else
    let m : StubsManager := ⟨stubsRoot, []⟩
    let (stub, _) := m.create fs path
    match addAll stub funcs with
    | .error er => (.error er, fs)
    | .ok stub2 =>
      match stub2.dump fs with
      | (.error er, fs2) => (.error er, fs2)
      | (.ok _, fs2) => (.ok stub2.path, fs2)

/-! ### Syntax trees (`ast` / `astroid`) for `markers.py`

Two parallel node families exist over the same grammar: the syntax-only
`ast` tree and the inference-capable `astroid` tree.  Nodes carry the family
tag where the code distinguishes them (`isinstance(expr, astroid.Call)`,
`isinstance(arg, astroid.Const)` versus `isinstance(arg, ast.Str)`). -/

/-- Which of the two tree families produced a node. -/
inductive Family where
  | astF
  | astroidF
  deriving DecidableEq, Repr

/-- Expression nodes used by the marker rules.  `const` is an
`astroid.Const` carrying a Python value, `strLit` is an `ast.Str` literal;
`call` carries the producing family, the callee, positional arguments,
keyword arguments (`arg` name and value) and the source location. -/
inductive Expr where
  | name (id : String)
  | attribute (value : Expr) (attrname : String)
  | const (v : PyVal)
  | strLit (s : String)
  | call (family : Family) (func : Expr) (args : List Expr)
      (keywords : List (Option String × Expr)) (lineno colOffset : Nat)
  | other

/-- Statement-level nodes over which the extractor dispatches: `global` and
`nonlocal` statements, import statements of either family, expression
statements (calls), `with` blocks (with the context expressions of their
items), and nodes for which no handler is registered. -/
inductive Stmt where
  | globalStmt (lineno colOffset : Nat)
  | nonlocalStmt (lineno colOffset : Nat)
  | importStmt (family : Family) (lineno colOffset : Nat)
  | importFromStmt (family : Family) (lineno colOffset : Nat)
  | exprStmt (e : Expr)
  | withStmt (items : List Expr) (lineno colOffset : Nat)
  | otherStmt

/-- Callee of a call expression (`expr.func`). -/
def exprFunc : Expr → Expr
  | .call _ fn _ _ _ _ => fn
  | _ => .other

/-- Positional arguments of a call expression (`expr.args`). -/
def exprArgs : Expr → List Expr
  | .call _ _ args _ _ _ => args
  | _ => []

/-- Keyword arguments of a call expression (`expr.keywords`). -/
def exprKeywords : Expr → List (Option String × Expr)
  | .call _ _ _ kws _ _ => kws
  | _ => []

/-- Line of a call expression (`expr.lineno`). -/
def exprLine : Expr → Nat
  | .call _ _ _ _ l _ => l
  | _ => 0

/-- Column of a call expression (`expr.col_offset`). -/
def exprCol : Expr → Nat
  | .call _ _ _ _ _ c => c
  | _ => 0

/-- An effect token as produced by every rule: marker category, optional
diagnostic value, and source location.  Models `Token` from `common.py`
(absent from the sources), whose `value` defaults to nothing. -/
structure Token where
  marker : String
  value : Option String := none
  line : Nat
  col : Nat
  deriving DecidableEq, Repr

/-- A function definition as resolved by the inference oracle:
`astroid.FunctionDef` with its defining module name and function name (as
`get_full_name` reports them), its body, and the result of the external
contract parser on its decorators (`none` when the function has no
decorators). -/
structure FunctionDef where
  moduleName : String
  funcName : String
  body : List Stmt
  decorators : Option (List (String × List PyVal))

/-- A value returned by the inference oracle: a concrete function
definition, a bound method with the `pytype` of its receiver, an instance
with its `pytype`, or something unresolved. -/
inductive Inferred where
  | functionDef (fd : FunctionDef)
  | boundMethod (boundPytype : String)
  | instance_ (pytype : String)
  | unresolved

/-- The inference oracle, modelled from the spec at its interface boundary:
`infer(expression) -> sequence of candidate resolved values` (`infer` from
`common.py`, absent from the sources; unresolved inference yields the empty
sequence and never an error). -/
abbrev Oracle := Expr → List Inferred

/-- Modelled from the spec: `get_name` from `common.py` (absent from the
sources) resolves the callee to a dotted name — a bare name resolves to
itself, an attribute chain to the dotted join, anything else to nothing. -/
def get_name : Expr → Option String
  | .name id => some id
  | .attribute v a =>
    match get_name v with
    | some base => some (base ++ "." ++ a)
    | none => none
  | _ => none

/-! ### Rule constants from `markers.py` -/

/-- `DEFINITELY_RANDOM_FUNCS` from `markers.py`. -/
def DEFINITELY_RANDOM_FUNCS : List String :=
  ["randint", "randbytes", "randrange", "getrandbits", "shuffle"]

/-- `MAYBE_RANDOM_FUNCS = frozenset(dir(random))` from `markers.py`: the
exported names of the `random` module.  The value of `dir(random)` is
modelled from CPython 3.9. -/
def MAYBE_RANDOM_FUNCS : List String :=
  ["BPF", "LOG4", "NV_MAGICCONST", "RECIP_BPF", "Random", "SG_MAGICCONST",
   "SystemRandom", "TWOPI", "_ONE", "_Sequence", "_Set", "__all__",
   "__builtins__", "__cached__", "__doc__", "__file__", "__loader__",
   "__name__", "__package__", "__spec__", "_accumulate", "_acos", "_bisect",
   "_ceil", "_cos", "_e", "_exp", "_floor", "_index", "_inst", "_isfinite",
   "_log", "_os", "_pi", "_random", "_repeat", "_sha512", "_sqrt", "_test",
   "_test_generator", "_urandom", "_warn", "betavariate", "choice",
   "choices", "expovariate", "gammavariate", "gauss", "getrandbits",
   "getstate", "lognormvariate", "normalvariate", "paretovariate",
   "randbytes", "randint", "random", "randrange", "sample", "seed",
   "setstate", "shuffle", "triangular", "uniform", "vonmisesvariate",
   "weibullvariate"]

/-- `SYSCALLS` from `markers.py`. -/
def SYSCALLS : List String :=
  ["os.abort", "os.execv", "os.fork", "os.forkpty", "os.kill", "os.killpg",
   "os.plock", "os.posix_spawn", "os.posix_spawnp", "os.putenv",
   "os.startfile", "os.system", "os.wait", "os.wait3", "os.wait4",
   "os.waitid", "os.waitpid",
   "subprocess.call", "subprocess.check_call", "subprocess.check_out",
   "subprocess.getoutput", "subprocess.getstatusoutput", "subprocess.run",
   "subprocess.Popen"]

/-- `SYSCALLS_PREFIXES` from `markers.py`. -/
def SYSCALLS_PREFIXES : List String :=
  ["os.exec", "os.spawn", "os.popen"]

/-- `TIMES` from `markers.py`. -/
def TIMES : List String :=
  ["os.times", "datetime.now", "date.today", "datetime.datetime.now",
   "datetime.date.today",
   "time.clock_gettime", "time.clock_gettime_ns", "time.get_clock_info",
   "time.monotonic", "time.monotonic_ns", "time.perf_counter",
   "time.perf_counter_ns", "time.process_time", "time.process_time_ns",
   "time.time", "time.time_ns", "time.thread_time", "time.thread_time_ns"]

/-! ### Call classification helpers from `markers.py` -/

/-- Positional-argument half of `_is_open_to_write`: an `astroid.Const`
equal to the string `"w"`, or an `ast.Str` containing `w`. -/
def openToWriteArgs : List Expr → Bool
  | [] => false
  | .const v :: rest =>
    if v = PyVal.str "w" then true else openToWriteArgs rest
  | .strLit s :: rest =>
    if charIn 'w' s then true else openToWriteArgs rest
  | _ :: rest => openToWriteArgs rest

/-- Keyword-argument half of `_is_open_to_write`: only `mode=` keywords are
inspected; an `astroid.Const` value goes through Python `'w' in value`,
which raises `TypeError` for a non-string constant, and an `ast.Str` value
through the substring test. -/
def openToWriteKws : List (Option String × Expr) → Except PyErr Bool
  | [] => .ok false
  | (arg, value) :: rest =>
    if arg ≠ some "mode" then openToWriteKws rest
    else
      match value with
      | .const v =>
        match pyCharIn 'w' v with
        | .error er => .error er
        | .ok true => .ok true
        | .ok false => openToWriteKws rest
      | .strLit s =>
        if charIn 'w' s then .ok true else openToWriteKws rest
      | _ => openToWriteKws rest

/-- `_is_open_to_write` from `markers.py`: scan positional arguments first,
return false when there are no keywords, then scan the keyword arguments. -/
def _is_open_to_write (e : Expr) : Except PyErr Bool :=
  if openToWriteArgs (exprArgs e) then .ok true
  else if (exprKeywords e).isEmpty then .ok false
  else openToWriteKws (exprKeywords e)

/-- Receiver test used by `_is_pathlib_write`: some inferred value of the
receiver is an instance whose `pytype()` starts with `pathlib.`. -/
def isPathlibInstance : Inferred → Bool
  | .instance_ pt => strStartsWith pt "pathlib."
  | _ => false

/-- `_is_pathlib_write` from `markers.py`: an `astroid.Call` on an attribute
named `write_text`, `write_bytes` or `open` (with the `open` mode check),
whose inferred receiver is a `pathlib` instance. -/
def _is_pathlib_write (O : Oracle) (e : Expr) : Except PyErr Bool :=
  match e with
  | .call .astroidF (.attribute recv attr) args kws l c =>
    if attr = "open" then
      match _is_open_to_write (.call .astroidF (.attribute recv attr) args kws l c) with
      | .error er => .error er
      | .ok true => .ok ((O recv).any isPathlibInstance)
      | .ok false => .ok false
    else if attr = "write_text" ∨ attr = "write_bytes" then
      .ok ((O recv).any isPathlibInstance)
    else .ok false
  | _ => .ok false

/-- `_check_print` from `markers.py`: a call to `print` is `stdout` unless a
`file=` keyword redirects it to `stderr` or to an unrecognised stream. -/
def _check_print (e : Expr) (name : String) : Option Token :=
  if name ≠ "print" then none
  else
    match (exprKeywords e).find? fun kw => kw.1 = some "file" with
    | some kw =>
      match get_name kw.2 with
      | some v =>
        if v = "stdout" ∨ v = "sys.stdout" then
          some ⟨"stdout", some "print", exprLine e, exprCol e⟩
        else if v = "stderr" ∨ v = "sys.stderr" then
          some ⟨"stderr", some "print", exprLine e, exprCol e⟩
        else none
      | none => none
    | none => some ⟨"stdout", some "print", exprLine e, exprCol e⟩

/-- Bound-method test used by `_is_random`: the inferred value is a bound
method whose receiver has `pytype()` equal to `random.Random`. -/
def isBoundRandom : Inferred → Bool
  | .boundMethod bp => bp = "random.Random"
  | _ => false

/-- `_is_random` from `markers.py`: a dotted name starting with `random.`;
otherwise a bare name in the definitely-random set, or a bare exported name
of the `random` module whose inferred value is a method bound to a
`random.Random` instance. -/
def _is_random (O : Oracle) (e : Expr) (name : String) : Bool :=
  if strStartsWith name "random." then true
  else if charIn '.' name then false
  else if DEFINITELY_RANDOM_FUNCS.contains name then true
  else if MAYBE_RANDOM_FUNCS.contains name then
    (O (exprFunc e)).any isBoundRandom
  else false

/-- `_is_syscall` from `markers.py`. -/
def _is_syscall (name : String) : Bool :=
  SYSCALLS.contains name || SYSCALLS_PREFIXES.any fun p => strStartsWith name p

/-- `_is_time` from `markers.py`. -/
def _is_time (name : String) : Bool :=
  TIMES.contains name || TIMES.contains ("time." ++ name)

/-! ### Stub consultation and the recursive dive -/

/-- Stubs visible to the marker engine: resolved module name to stub
content.  The lookup models `get_stub` from `common.py` (absent from the
sources), specified as: resolve the defining module name and look up a stub
file for that module. -/
abbrev StubsMap := List (String × StubContent)

/-- Read of the `has` category of a stub, as `stub.get(func, Category.HAS)`
does; `Category.HAS` from `_contract.py` (absent from the sources) is the
category literal `has`. -/
def stubContentGet (c : StubContent) (func contract : String) : List String :=
  (((alookup c func).getD []) |> fun m => (alookup m contract).getD []).dedup

/-- `_markers_from_stubs` from `markers.py`: for every inferred value that
is exactly a `FunctionDef`, resolve its module and function name, look up
the stub, and emit one token per `has` entry at the calling expression's
location. -/
def _markers_from_stubs (O : Oracle) (e : Expr) (smap : StubsMap) : List Token :=
  ((O (exprFunc e)).map fun v =>
    match v with
    | .functionDef fd =>
      match alookup smap fd.moduleName with
      | none => []
      | some content =>
        (stubContentGet content fd.funcName "has").map fun n =>
          (⟨n, none, exprLine e, exprCol e⟩ : Token)
    | _ => []).flatten

/-- Stub-sourced tokens of a call: produced only for an `astroid.Call` and
only when a stubs manager was supplied, as the guard
`type(expr) is astroid.Call and stubs is not None` requires. -/
def stubTokens (O : Oracle) (stubs : Option StubsMap) (e : Expr) : List Token :=
  match e, stubs with
  | .call .astroidF _ _ _ _ _, some smap =>
    _markers_from_stubs O (e) smap
  | _, _ => []

/-- Declared-effect tokens from `@deal.has(...)` decorators of an inferred
function, re-attributed to the caller's location: `get_contracts` and
`get_value` (external contract parser, specified in the spec) yield the
category and literal arguments; only string literals of the `has` category
become tokens. -/
def decoHasTokens (fd : FunctionDef) (l c : Nat) : List Token :=
  match fd.decorators with
  | none => []
  | some contracts =>
    (contracts.map fun pr =>
      if pr.1 = "has" then
        pr.2.filterMap fun a =>
          match a with
          | .str s => some (⟨s, none, l, c⟩ : Token)
          | _ => none
      else []).flatten

/-- Per-candidate loop of `_markers_from_func`: for every inferred value
that is exactly a `FunctionDef`, analyse its body through the callee-body
analyzer `bm`, re-attribute every resulting token to the outer call's line
and column, then append the declared-effect decorator tokens. -/
def collectFuncs (bm : List Stmt → Except PyErr (List Token)) (l c : Nat) :
    List Inferred → Except PyErr (List Token)
  | [] => .ok []
  | .functionDef fd :: rest =>
    match bm fd.body with
    | .error er => .error er
    | .ok inner =>
      match collectFuncs bm l c rest with
      | .error er => .error er
      | .ok rest2 =>
        .ok ((inner.map fun t => (⟨t.marker, t.value, l, c⟩ : Token))
          ++ decoHasTokens fd l c ++ rest2)
  | _ :: rest => collectFuncs bm l c rest

/-- `_markers_from_func` from `markers.py`, with the recursive call
`get_markers(body=value.body, dive=False)` abstracted as the callee-body
analyzer `bm`. -/
def _markers_from_func (O : Oracle) (bm : List Stmt → Except PyErr (List Token))
    (e : Expr) : Except PyErr (List Token) :=
  collectFuncs bm (exprLine e) (exprCol e) (O (exprFunc e))

/-- `_infer_markers` from `markers.py`: stub-sourced tokens first; the dive
into the callee's body runs only when no stub token was produced and diving
is still permitted (`if not stubs_found and dive`). -/
def _infer_markers (O : Oracle) (bm : List Stmt → Except PyErr (List Token))
    (stubs : Option StubsMap) : Bool → Expr → Except PyErr (List Token)
  | false, e => .ok (stubTokens O stubs e)
  | true, e =>
    let st := stubTokens O stubs e
    if st = [] then _markers_from_func O bm e else .ok st

/-- `handle_call` from `markers.py`: resolve the callee name, then evaluate
the direct rules in source order (print, standard streams, `input`,
`__import__`, randomness, syscalls, time, `open`, pathlib writes), falling
back to the inference tier. -/
def handle_call (O : Oracle) (bm : List Stmt → Except PyErr (List Token))
    (stubs : Option StubsMap) (dive : Bool) (e : Expr) :
    Except PyErr (List Token) :=
  match e with
  | .call fam fn args kws l c =>
    match get_name fn with
    | none => .ok []
    | some name =>
      match _check_print (.call fam fn args kws l c) name with
      | some t => .ok [t]
      | none =>
        if strStartsWith name "sys.stdout" then .ok [⟨"stdout", some "sys.stdout.", l, c⟩]
        else if strStartsWith name "sys.stderr" then .ok [⟨"stderr", some "sys.stderr.", l, c⟩]
        else if strStartsWith name "sys.stdin" then .ok [⟨"stdin", some "sys.stdin.", l, c⟩]
        else if name = "input" then .ok [⟨"stdin", some "input", l, c⟩]
        else if name = "__import__" then .ok [⟨"import", none, l, c⟩]
        else if _is_random O (.call fam fn args kws l c) name then
          .ok [⟨"random", some name, l, c⟩]
        else if _is_syscall name then .ok [⟨"syscall", some name, l, c⟩]
        else if _is_time name then .ok [⟨"time", some name, l, c⟩]
        else if name = "open" then
          match _is_open_to_write (.call fam fn args kws l c) with
          | .error er => .error er
          | .ok true => .ok [⟨"write", some "open", l, c⟩]
          | .ok false => .ok [⟨"read", some "open", l, c⟩]
        else
          match _is_pathlib_write O (.call fam fn args kws l c) with
          | .error er => .error er
          | .ok true => .ok [⟨"write", some "Path.open", l, c⟩]
          | .ok false => _infer_markers O bm stubs dive (.call fam fn args kws l c)
  | _ => .ok []

/-- `handle_with` from `markers.py`: scan the context expressions of the
`with` items for pathlib writes and `open` calls; the first match decides. -/
def handle_with (O : Oracle) (l c : Nat) : List Expr → Except PyErr (Option Token)
  | [] => .ok none
  | item :: rest =>
    match _is_pathlib_write O item with
    | .error er => .error er
    | .ok true => .ok (some ⟨"write", some "Path.open", l, c⟩)
    | .ok false =>
      match item with
      | .call fam fn args kws il ic =>
        if get_name fn = some "open" then
          match _is_open_to_write (.call fam fn args kws il ic) with
          | .error er => .error er
          | .ok true => .ok (some ⟨"write", some "open", l, c⟩)
          | .ok false => .ok (some ⟨"read", some "open", l, c⟩)
        else handle_with O l c rest
      | _ => handle_with O l c rest

/-- Modelled from the spec: the `Extractor` dispatch table from `common.py`
(absent from the sources) invokes the handler registered for a node's kind
once per node of a function body, producing no tokens for unregistered
kinds.  `global` and `nonlocal` both yield the `global` marker; both import
statement families yield `import`. -/
def dispatchNode (O : Oracle) (bm : List Stmt → Except PyErr (List Token))
    (stubs : Option StubsMap) (dive : Bool) : Stmt → Except PyErr (List Token)
  | .globalStmt l c => .ok [⟨"global", none, l, c⟩]
  | .nonlocalStmt l c => .ok [⟨"global", none, l, c⟩]
  | .importStmt _ l c => .ok [⟨"import", none, l, c⟩]
  | .importFromStmt _ l c => .ok [⟨"import", none, l, c⟩]
  | .exprStmt (.call fam fn args kws l c) =>
    handle_call O bm stubs dive (.call fam fn args kws l c)
  | .exprStmt _ => .ok []
  | .withStmt items l c =>
    match handle_with O l c items with
    | .error er => .error er
    | .ok (some t) => .ok [t]
    | .ok none => .ok []
  | .otherStmt => .ok []

/-- Dispatch over a whole body, concatenating the tokens of each node;
a raised exception aborts the traversal, as it propagates through the
consuming loop. -/
def runBody (O : Oracle) (bm : List Stmt → Except PyErr (List Token))
    (stubs : Option StubsMap) (dive : Bool) : List Stmt → Except PyErr (List Token)
  | [] => .ok []
  | st :: rest =>
    match dispatchNode O bm stubs dive st with
    | .error er => .error er
    | .ok ts =>
      match runBody O bm stubs dive rest with
      | .error er => .error er
      | .ok rest2 => .ok (ts ++ rest2)

/-- `get_markers` applied to a body: the full dispatch, where the recursive
dive of `_markers_from_func` analyses the callee's body with diving disabled
and no stubs (`get_markers(body=value.body, dive=False)`).  Because a
dive-disabled run never consults its own callee-body analyzer (proved in
`runBody_bm_indep`), the analyzer of the inner run is the empty
continuation: this is the one-level dive budget of the source. -/
def get_markers (O : Oracle) (stubs : Option StubsMap) (dive : Bool)
    (body : List Stmt) : Except PyErr (List Token) :=
  runBody O (fun b => runBody O (fun _ => .ok []) none false b) stubs dive body

/-! ## Concrete fixtures used by witnesses and counterexamples -/

/-- An inference oracle that resolves nothing. -/
def Oempty : Oracle := fun _ => []

/-- A callee-body analyzer producing no tokens. -/
def bmNil : List Stmt → Except PyErr (List Token) := fun _ => .ok []

/-- A callee-body analyzer producing a sentinel token, used to show that the
dive result is not consulted. -/
def bmJunk : List Stmt → Except PyErr (List Token) := fun _ => .ok [⟨"junk", none, 0, 0⟩]

/-- Definition of a function `g` of module `mymod`, with an empty body. -/
def gHasFD : FunctionDef := ⟨"mymod", "g", [], none⟩

/-- An oracle resolving the bare name `g` to `gHasFD`. -/
def O1 : Oracle := fun e =>
  match e with
  | .name "g" => [.functionDef gHasFD]
  | _ => []

/-- A stubs map recording a `has` entry `network` for `mymod.g`. -/
def smap1 : StubsMap := [("mymod", [("g", [("has", ["network"])])])]

/-- A call to `g` at line 5, column 2. -/
def eCall1 : Expr := .call .astroidF (.name "g") [] [] 5 2

/-- Body of a function `g` whose single statement calls `print` at line 2,
column 4, triggering the `stdout` marker. -/
def gBody4 : List Stmt :=
  [.exprStmt (.call .astroidF (.name "print") [.const (.str "hi")] [] 2 4)]

/-- Definition of `g` with the `print`-calling body and no decorators. -/
def gFD4 : FunctionDef := ⟨"m4", "g", gBody4, none⟩

/-- An oracle resolving the bare name `g` to `gFD4`. -/
def O4 : Oracle := fun e =>
  match e with
  | .name "g" => [.functionDef gFD4]
  | _ => []

/-- The callee-body analyzer the source uses for the recursive dive:
`get_markers(body, dive=False)` with no stubs. -/
def diveBM (O : Oracle) : List Stmt → Except PyErr (List Token) :=
  fun b => runBody O (fun _ => .ok []) none false b

/-- A stub file and cache state used by the lazy-cache witness. -/
def sf1 : StubFile := ⟨stubsRoot ++ ["example.json"], [("f", [("has", ["network"])])]⟩

/-- A filesystem holding the built-in stub `example.json`. -/
def fs1 : FS := [(stubsRoot ++ ["example.json"], .jsonData [("f", [("has", ["network"])])])]

/-- The manager state after `sf1` has been cached under `example`. -/
def m1 : StubsManager := ⟨stubsRoot, [("example", sf1)]⟩

/-! ## Helper lemmas -/

theorem alookup_alistSet_self {κ α : Type} [DecidableEq κ]
    (l : List (κ × α)) (k : κ) (v : α) :
    alookup (alistSet l k v) k = some v := by
  induction l with
  | nil => simp [alistSet, alookup]
  | cons hd tl ih =>
    obtain ⟨k2, v2⟩ := hd
    by_cases h : k2 = k
    · simp [alistSet, h, alookup]
    · simp [alistSet, h, alookup, ih]

theorem lastComponent_concat (l : List String) (x : String) :
    lastComponent (l ++ [x]) = x := by
  induction l with
  | nil => rfl
  | cons hd tl ih => simp [lastComponent, List.getLastD]

theorem handle_call_bm_indep (O : Oracle)
    (bm bm2 : List Stmt → Except PyErr (List Token))
    (stubs : Option StubsMap) (e : Expr) :
    handle_call O bm stubs false e = handle_call O bm2 stubs false e := rfl

theorem dispatchNode_bm_indep (O : Oracle)
    (bm bm2 : List Stmt → Except PyErr (List Token))
    (stubs : Option StubsMap) (st : Stmt) :
    dispatchNode O bm stubs false st = dispatchNode O bm2 stubs false st := rfl

theorem runBody_bm_indep (O : Oracle)
    (bm bm2 : List Stmt → Except PyErr (List Token))
    (stubs : Option StubsMap) (body : List Stmt) :
    runBody O bm stubs false body = runBody O bm2 stubs false body := by
  induction body with
  | nil => rfl
  | cons st rest ih =>
    simp only [runBody]
    rw [dispatchNode_bm_indep O bm bm2 stubs st, ih]

theorem runBody_congr (O : Oracle)
    (bm bm2 : List Stmt → Except PyErr (List Token))
    (stubs : Option StubsMap) (dive : Bool) (body : List Stmt)
    (h : ∀ b, bm b = bm2 b) :
    runBody O bm stubs dive body = runBody O bm2 stubs dive body := by
  have h2 : bm = bm2 := funext h
  rw [h2]

/-! ## Claims -/

/-- C1: the claimed stub round-trip is impossible in the code.  Running
`generate_stub` on a source file whose function `f` raises `ValueError` and
`KeyError` collects both values, but `StubFile.dump` executes
`self._content = json.dump(stream)`, which raises `TypeError` (the `fp`
argument of `json.dump` is missing) after truncating the backing file, so
the stub is never written and reloading cannot return the set. -/
theorem C1_generate_stub_round_trip_broken :
    generate_stub [] ["example.py"] [(some "f", ["ValueError", "KeyError"])] =
      (.error (.typeError "dump missing 1 required positional argument: fp"),
       [(["example.json"], FileData.truncated)]) := rfl

/-- C2 counterexample: a call `open("x", mode=1)` from the astroid tree,
whose `mode=` keyword is a constant holding a non-string, makes
`handle_call` raise `TypeError`: `_is_open_to_write` evaluates
`'w' in arg.value.value` on the integer.  The claim that such malformed
input never causes the handler to raise is therefore false. -/
theorem C2_open_mode_const_raises :
    handle_call Oempty bmNil none true
      (.call .astroidF (.name "open") [.const (.str "x")]
        [(some "mode", .const (.int 1))] 3 0) =
      .error (.typeError "argument of type is not iterable") := rfl

/-- C2 amended: a call whose callee name is unresolvable makes the handler
return normally with zero tokens; but (per the counterexample) an `open`
call whose `mode=` keyword is an astroid constant holding a non-string
raises `TypeError` instead of degrading to no token. -/
theorem C2_unresolvable_name_no_token (O : Oracle)
    (bm : List Stmt → Except PyErr (List Token)) (stubs : Option StubsMap)
    (dive : Bool) (fam : Family) (fn : Expr) (args : List Expr)
    (kws : List (Option String × Expr)) (l c : Nat)
    (h : get_name fn = none) :
    handle_call O bm stubs dive (.call fam fn args kws l c) = .ok [] := by
  simp [handle_call, h]

/-- C2 amended witness: a concrete call with an unresolvable callee. -/
theorem C2_unresolvable_name_no_token_witness :
    handle_call Oempty bmNil none true (.call .astF .other [] [] 1 1) = .ok [] :=
  C2_unresolvable_name_no_token Oempty bmNil none true .astF .other [] [] 1 1 rfl

/-- C3: when at least one stub-sourced token is produced for a call, the
inference tier returns exactly those tokens, whatever the dive budget and
whatever the callee-body analyzer could produce — the recursive dive is not
performed. -/
theorem C3_stub_tokens_block_dive (O : Oracle)
    (bm : List Stmt → Except PyErr (List Token)) (stubs : Option StubsMap)
    (dive : Bool) (e : Expr) (h : stubTokens O stubs e ≠ []) :
    _infer_markers O bm stubs dive e = .ok (stubTokens O stubs e) := by
  cases dive with
  | false => rfl
  | true => simp [_infer_markers, h]

/-- C3 witness: a call to `g` whose stub records the `has` entry `network`
yields exactly that token even though the callee-body analyzer would have
produced a sentinel token. -/
theorem C3_stub_tokens_block_dive_witness :
    _infer_markers O1 bmJunk (some smap1) true eCall1 =
      .ok [⟨"network", none, 5, 2⟩] := by
  have h := C3_stub_tokens_block_dive O1 bmJunk (some smap1) true eCall1 (by decide)
  rw [h]
  rfl

/-- C4: every token obtained through the recursive dive into the callee is
re-attributed to the line and column of the call expression, keeping its
marker and value; the tokens of the callee's own body (as the analyzer
produced them) carry the callee's own locations. -/
theorem C4_dive_reattributes (O : Oracle)
    (bm : List Stmt → Except PyErr (List Token)) (fam : Family) (fn : Expr)
    (args : List Expr) (kws : List (Option String × Expr)) (l c : Nat)
    (fd : FunctionDef) (inner : List Token)
    (hO : O fn = [.functionDef fd]) (hbm : bm fd.body = .ok inner) :
    _markers_from_func O bm (.call fam fn args kws l c) =
      .ok ((inner.map fun t => (⟨t.marker, t.value, l, c⟩ : Token))
        ++ decoHasTokens fd l c) := by
  simp [_markers_from_func, exprFunc, exprLine, exprCol, hO, collectFuncs, hbm]

/-- C4 witness: analyzing `g` directly yields `stdout` at `g`'s own
triggering statement (line 2, column 4); diving into `g` from a call at
line 10, column 2 yields the same marker at the call site. -/
theorem C4_dive_reattributes_witness :
    get_markers O4 none false gBody4 =
        .ok [⟨"stdout", some "print", 2, 4⟩]
      ∧ _markers_from_func O4 (diveBM O4) (.call .astroidF (.name "g") [] [] 10 2) =
        .ok [⟨"stdout", some "print", 10, 2⟩] := by
  constructor
  · rfl
  · have h := C4_dive_reattributes O4 (diveBM O4) .astroidF (.name "g") [] [] 10 2
      gFD4 [⟨"stdout", some "print", 2, 4⟩] rfl rfl
    rw [h]
    rfl

/-- C5: the dive is bounded to depth one.  First, the callee-body analyzer
used by the extractor is the extractor itself with diving disabled and no
stubs.  Second, with diving disabled the result does not depend on the
callee-body analyzer at all, so no dive into any function body occurs.
Third, with diving disabled a call contributes only its stub tokens.
Termination on every finite tree, cyclic call graphs included, holds by
construction: the embedding is a total function. -/
theorem C5_dive_depth_one (O : Oracle)
    (bm bm2 : List Stmt → Except PyErr (List Token)) (stubs : Option StubsMap)
    (dive : Bool) (body : List Stmt) (e : Expr) :
    (get_markers O stubs dive body =
        runBody O (fun b => get_markers O none false b) stubs dive body)
      ∧ (runBody O bm stubs false body = runBody O bm2 stubs false body)
      ∧ (_infer_markers O bm stubs false e = .ok (stubTokens O stubs e)) := by
  refine ⟨?_, runBody_bm_indep O bm bm2 stubs body, rfl⟩
  exact runBody_congr O _ _ stubs dive body fun b =>
    runBody_bm_indep O (fun _ => .ok []) (fun b2 => runBody O (fun _ => .ok []) none false b2) none b

/-- C6: classification of `open` calls — `open("x", "r")`, `open("x")` and
`open("x", mode="r")` each yield exactly one `read` token; `open("x", "w")`
and `open("x", mode="rw")` each yield exactly one `write` token. -/
theorem C6_open_classification (O : Oracle)
    (bm : List Stmt → Except PyErr (List Token)) (stubs : Option StubsMap)
    (dive : Bool) :
    handle_call O bm stubs dive
        (.call .astroidF (.name "open") [.const (.str "x"), .const (.str "r")] [] 1 0) =
        .ok [⟨"read", some "open", 1, 0⟩]
      ∧ handle_call O bm stubs dive
        (.call .astroidF (.name "open") [.const (.str "x")] [] 1 0) =
        .ok [⟨"read", some "open", 1, 0⟩]
      ∧ handle_call O bm stubs dive
        (.call .astroidF (.name "open") [.const (.str "x")]
          [(some "mode", .const (.str "r"))] 1 0) =
        .ok [⟨"read", some "open", 1, 0⟩]
      ∧ handle_call O bm stubs dive
        (.call .astroidF (.name "open") [.const (.str "x"), .const (.str "w")] [] 1 0) =
        .ok [⟨"write", some "open", 1, 0⟩]
      ∧ handle_call O bm stubs dive
        (.call .astroidF (.name "open") [.const (.str "x")]
          [(some "mode", .const (.str "rw"))] 1 0) =
        .ok [⟨"write", some "open", 1, 0⟩] :=
  ⟨rfl, rfl, rfl, rfl, rfl⟩

/-- C7 counterexample: `randint` is an exported name of the `random` module,
yet a bare call to it yields the `random` marker even under an oracle that
infers nothing at all — `DEFINITELY_RANDOM_FUNCS` short-circuits the
bound-method condition, so "exactly when inference resolves it to a bound
method of random.Random" is false. -/
theorem C7_bare_definitely_random_counterexample :
    handle_call Oempty bmNil none true
        (.call .astroidF (.name "randint") [] [] 1 0) =
        .ok [⟨"random", some "randint", 1, 0⟩]
      ∧ Oempty (exprFunc (.call .astroidF (.name "randint") [] [] 1 0)) = [] :=
  ⟨rfl, rfl⟩

/-- C7 amended: a dotted name starting with `random.` is random; a bare name
is random exactly when it is in the fixed definitely-random set, or is an
exported name of the `random` module whose inferred value is a method bound
to a `random.Random` instance.  Inference is consulted only outside the
definitely-random set. -/
theorem C7_random_rule_amended (O : Oracle) (e : Expr) (name : String) :
    (strStartsWith name "random." = true → _is_random O e name = true)
      ∧ (strStartsWith name "random." = false → charIn '.' name = false →
          (_is_random O e name = true ↔
            (DEFINITELY_RANDOM_FUNCS.contains name = true
              ∨ (MAYBE_RANDOM_FUNCS.contains name = true
                  ∧ (O (exprFunc e)).any isBoundRandom = true)))) := by
  constructor
  · intro h
    simp [_is_random, h]
  · intro h1 h2
    by_cases hd : DEFINITELY_RANDOM_FUNCS.contains name = true
    · simp [_is_random, h1, h2, hd]
    · by_cases hm : MAYBE_RANDOM_FUNCS.contains name = true
      · simp [_is_random, h1, h2, hd, hm]
      · simp [_is_random, h1, h2, hd, hm]

/-- C7 amended witness: `random.seed` is random by the dotted rule, while a
bare `seed` (an exported name of `random`) with no inferred bound method is
not random. -/
theorem C7_random_rule_amended_witness :
    _is_random Oempty (.name "x") "random.seed" = true
      ∧ _is_random Oempty (.name "x") "seed" = false := by
  constructor
  · exact (C7_random_rule_amended Oempty (.name "x") "random.seed").1 rfl
  · have h := (C7_random_rule_amended Oempty (.name "x") "seed").2 rfl rfl
    cases hb : _is_random Oempty (.name "x") "seed"
    · rfl
    · exact absurd (h.mp hb) (by decide)

/-- C8: a file at `pkg/sub/mod.py` with `__init__.py` markers at both `pkg/`
and `pkg/sub/` resolves to `pkg.sub.mod`; the same file with no package
marker in any ancestor directory resolves to the bare `mod`. -/
theorem C8_module_name_resolution :
    _get_module_name
        [(["pkg", "__init__.py"], .pyMarker), (["pkg", "sub", "__init__.py"], .pyMarker),
         (["pkg", "sub", "mod.py"], .pyMarker)]
        stubsRoot ["pkg", "sub", "mod.py"] = "pkg.sub.mod"
      ∧ _get_module_name [(["pkg", "sub", "mod.py"], .pyMarker)] stubsRoot
        ["pkg", "sub", "mod.py"] = "mod" :=
  ⟨rfl, rfl⟩

/-- C9: configuration errors are fatal and immediate — `StubsManager.read`
on a path whose extension is not `.json` raises `ValueError` with the cache
untouched, and `generate_stub` on a path whose extension is not `.py` raises
`ValueError` with the filesystem untouched. -/
theorem C9_bad_extension_fatal (m : StubsManager) (fs : FS) (p : List String)
    (funcs : List (Option String × List String)) :
    (fileSuffix (lastComponent p) ≠ ".json" →
        m.read fs p =
          (.error (.valueError ("invalid stub file extension: *" ++ fileSuffix (lastComponent p))), m))
      ∧ (fileSuffix (lastComponent p) ≠ ".py" →
        generate_stub fs p funcs =
          (.error (.valueError ("invalid Python file extension: *" ++ fileSuffix (lastComponent p))), fs)) := by
  constructor
  · intro h
    simp [StubsManager.read, h]
  · intro h
    simp [generate_stub, h]

/-- C9 witness: a `.txt` path is rejected by both entry points, leaving the
manager and the filesystem unchanged. -/
theorem C9_bad_extension_fatal_witness :
    StubsManager.read ⟨stubsRoot, []⟩ [] ["stub.txt"] =
        (.error (.valueError "invalid stub file extension: *.txt"), ⟨stubsRoot, []⟩)
      ∧ generate_stub [] ["stub.txt"] [] =
        (.error (.valueError "invalid Python file extension: *.txt"), []) := by
  have h := C9_bad_extension_fatal ⟨stubsRoot, []⟩ [] ["stub.txt"] []
  constructor
  · rw [h.1 (by decide)]
    rfl
  · rw [h.2 (by decide)]
    rfl

/-- C10 counterexample: for the empty module name with a built-in stub file
`stubs/.json` on disk, `get` does not return nothing — it raises
`ValueError`, because `pathlib` gives the name `.json` an empty suffix and
`read` rejects it. -/
theorem C10_empty_module_name_counterexample :
    alookup (⟨stubsRoot, []⟩ : StubsManager).modules "" = none
      ∧ fsHas [(stubsRoot ++ ["" ++ ".json"], FileData.jsonData [])]
          (stubsRoot ++ ["" ++ ".json"]) = true
      ∧ StubsManager.get ⟨stubsRoot, []⟩
          [(stubsRoot ++ ["" ++ ".json"], FileData.jsonData [])] "" =
          (.error (.valueError "invalid stub file extension: *"), ⟨stubsRoot, []⟩)
      ∧ (StubsManager.get ⟨stubsRoot, []⟩
          [(stubsRoot ++ ["" ++ ".json"], FileData.jsonData [])] "").1 ≠
          Except.ok none :=
  ⟨rfl, rfl, rfl, fun h => Except.noConfusion h⟩

/-- C10 amended: for every module name whose stub file name decomposes with
suffix `.json` and stem equal to the name (every nonempty module name), an
uncached `get` returns nothing even when the built-in stub file exists,
loading the stub into the cache as a side effect; only a subsequent `get`
for the same name returns the cached `StubFile`. -/
theorem C10_get_lazy_cache (m : StubsManager) (fs : FS) (name : String)
    (c : StubContent)
    (h1 : alookup m.modules name = none)
    (h2 : alookup fs (m.root ++ [name ++ ".json"]) = some (.jsonData c))
    (h3 : fileSuffix (name ++ ".json") = ".json")
    (h4 : fileStem (name ++ ".json") = name) :
    m.get fs name =
        (.ok none,
         { m with modules := alistSet m.modules name ⟨m.root ++ [name ++ ".json"], c⟩ })
      ∧ StubsManager.get
          { m with modules := alistSet m.modules name ⟨m.root ++ [name ++ ".json"], c⟩ }
          fs name =
        (.ok (some ⟨m.root ++ [name ++ ".json"], c⟩),
         { m with modules := alistSet m.modules name ⟨m.root ++ [name ++ ".json"], c⟩ }) := by
  have hpath : lastComponent (m.root ++ [name ++ ".json"]) = name ++ ".json" :=
    lastComponent_concat m.root (name ++ ".json")
  have hpar : pathParent (m.root ++ [name ++ ".json"]) = m.root := by
    simp [pathParent]
  have hmod : _get_module_name fs m.root (m.root ++ [name ++ ".json"]) = name := by
    simp [_get_module_name, hpar, hpath, h4]
  have hread : StubsManager.read m fs (m.root ++ [name ++ ".json"]) =
      (.ok ⟨m.root ++ [name ++ ".json"], c⟩,
       { m with modules := alistSet m.modules name ⟨m.root ++ [name ++ ".json"], c⟩ }) := by
    simp [StubsManager.read, hpath, h3, hmod, h1, StubFile.load, h2]
  constructor
  · simp [StubsManager.get, h1, fsHas, h2, hread]
  · simp [StubsManager.get, alookup_alistSet_self]

/-- C10 amended witness: the module `example` with its built-in stub file
present is first reported as absent while being cached, then found. -/
theorem C10_get_lazy_cache_witness :
    StubsManager.get ⟨stubsRoot, []⟩ fs1 "example" = (.ok none, m1)
      ∧ StubsManager.get m1 fs1 "example" = (.ok (some sf1), m1) := by
  have h := C10_get_lazy_cache ⟨stubsRoot, []⟩ fs1 "example"
    [("f", [("has", ["network"])])] rfl rfl rfl rfl
  exact h

end DealLinter
